import Mathlib

/-!
Verification of the marketplace Discord bot (src/main.py).

The development shallowly embeds the relevant parts of the program:

* the URL matcher (the `FB_PATTERNS` regular-expression list and the
  first-match loop of `on_message`) via a small backtracking regex engine
  over explicit pattern ASTs, mirroring the semantics of `re.search`
  (leftmost position, greedy quantifiers with backtracking);
* the DOM heuristics (`find_main_listing_container` and the five field
  extractors).  The browser DOM is abstracted to the exact observations
  the code makes of it: each element carries its rendered text, the set
  of CSS selector strings it answers to, its `src`/`width` attributes,
  whether it has a carousel-marked ancestor, and its parent text.  The
  query engine of the browser driver is not re-verified; its results are
  the data of the model;
* the scraping pipeline `scrape_facebook_marketplace`, instrumented with
  an explicit event trace (container acquisitions, extractor calls, the
  retry pass, and the `driver.quit` teardown) so that resource and
  control-flow claims are statable;
* the presenter (the success and error embeds built by `on_message`).

Fallible external behaviour (webdriver startup failure, page-load
timeout, an unexpected exception during navigation) is supplied by an
explicit environment value, matching the error taxonomy of the code.
-/

namespace FBBot

/-! ### String helpers (Python string operations) -/

/-- Occurrence of `needle` as a contiguous infix of `hay`
(the Python `in` operator on strings). -/
def listInfix (needle : List Char) : List Char → Bool
  | [] => needle.isEmpty
  | c :: t => needle.isPrefixOf (c :: t) || listInfix needle t

/-- Python `needle in hay` for strings. -/
def substrIn (needle hay : String) : Bool :=
  listInfix needle.data hay.data

/-- Python `s.count(c)` for a single-character needle. -/
def countChar (c : Char) (s : String) : Nat :=
  s.data.count c

/-- Index of the first occurrence of `needle` in `hay`, if any. -/
def idxOfSub (needle : List Char) : List Char → Option Nat
  | [] => if needle.isEmpty then some 0 else none
  | c :: t =>
    if needle.isPrefixOf (c :: t) then some 0
    else (idxOfSub needle t).map (· + 1)

/-- Python `s.split(sep, 1)[0]`: the part of `s` before the first
occurrence of `sep` (the whole of `s` when `sep` does not occur). -/
def strBeforeFirst (s sep : String) : String :=
  match idxOfSub sep.data s.data with
  | some i => String.mk (s.data.take i)
  | none => s

/-- Python `s.split(sep, 1)[1]`: the part of `s` after the first
occurrence of `sep` (empty when `sep` does not occur). -/
def strAfterFirst (s sep : String) : String :=
  match idxOfSub sep.data s.data with
  | some i => String.mk (s.data.drop (i + sep.data.length))
  | none => ""

/-- Python slicing `s[:n]` (first `n` code points). -/
def pyTake (s : String) (n : Nat) : String :=
  String.mk (s.data.take n)

/-! ### A small regex engine

The patterns of the program use only literals, character classes with
`+`, `*`, `?` and `{2}` quantifiers, optional non-capturing groups and a
single capturing group, so the AST below covers them.  The matcher is a
continuation-passing backtracking matcher with the preference order of
the Python engine: greedy quantifiers try the longest repetition first,
optional parts try the present alternative first, and the search scans
start positions from the left.  The `fuel` argument only bounds the
nesting depth of atoms along one match attempt (backtracking itself is
structural recursion), so a small constant is sufficient for the fixed
patterns of the program. -/

inductive Quant where
  | plus
  | star
  | optQ
  | exact : Nat → Quant

inductive RAtom where
  | lit : List Char → RAtom
  | cls : (Char → Bool) → Quant → RAtom
  | opt : List RAtom → RAtom
  | grp : List RAtom → RAtom

/-- Remaining input paired with the capture of group 1, if set. -/
abbrev MRes := List Char × Option (List Char)

/-- Number of leading characters of `s` satisfying `p` (maximal munch). -/
def munch (p : Char → Bool) : List Char → Nat
  | [] => 0
  | c :: t => if p c then munch p t + 1 else 0

/-- Try consuming `hi, hi-1, ..., lo` characters (greedy preference),
resuming the continuation after each attempt. -/
def tryCounts (lo : Nat) (s : List Char) (k : List Char → Option MRes) :
    Nat → Option MRes
  | 0 => if lo == 0 then k s else none
  | hi + 1 =>
    if hi + 1 < lo then none
    else
      match k (s.drop (hi + 1)) with
      | some r => some r
      | none => tryCounts lo s k hi

/-- Match a sequence of atoms against `s`, calling the continuation on
the rest of the input.  Backtracks through quantifiers and optional
groups in Python preference order. -/
def matchSeq : Nat → List RAtom → List Char → (List Char → Option MRes) →
    Option MRes
  | 0, _, _, _ => none
  | _ + 1, [], s, k => k s
  | fuel + 1, .lit l :: rest, s, k =>
    if l.isPrefixOf s then matchSeq fuel rest (s.drop l.length) k else none
  | fuel + 1, .cls p q :: rest, s, k =>
    let kk := fun s2 => matchSeq fuel rest s2 k
    match q with
    | .plus => tryCounts 1 s kk (munch p s)
    | .star => tryCounts 0 s kk (munch p s)
    | .optQ => tryCounts 0 s kk (min (munch p s) 1)
    | .exact n => if n ≤ munch p s then matchSeq fuel rest (s.drop n) k else none
  | fuel + 1, .opt as :: rest, s, k =>
    (match matchSeq fuel as s (fun s2 => matchSeq fuel rest s2 k) with
     | some r => some r
     | none => matchSeq fuel rest s k)
  | fuel + 1, .grp as :: rest, s, k =>
    matchSeq fuel as s (fun s2 =>
      match matchSeq fuel rest s2 k with
      | some r => some (r.1, some (s.take (s.length - s2.length)))
      | none => none)

/-- Result of a successful search: the text of the whole match
(`group(0)`) and of the capturing group (`group(1)`), if any. -/
structure MatchRes where
  matched : List Char
  group1 : Option (List Char)
deriving DecidableEq

/-- Nesting depth bound for the fixed patterns of the program; each atom
of a pattern consumes one unit, so 100 is far more than enough. -/
def engineFuel : Nat := 100

/-- Match the pattern at the start of `s` (any remainder may follow, as
with `re.search`). -/
def matchAt (pat : List RAtom) (s : List Char) : Option MatchRes :=
  match matchSeq engineFuel pat s (fun s2 => some (s2, none)) with
  | some (rem, cap) => some ⟨s.take (s.length - rem.length), cap⟩
  | none => none

/-- Scan start positions left to right (the leftmost-match rule of
`re.search`). -/
def searchFrom (pat : List RAtom) : List Char → Option MatchRes
  | [] => matchAt pat []
  | c :: t =>
    match matchAt pat (c :: t) with
    | some r => some r
    | none => searchFrom pat t

/-- `re.search(pat, s)`. -/
def reSearch (pat : List RAtom) (s : String) : Option MatchRes :=
  searchFrom pat s.data

/-! ### The URL matcher (`FB_PATTERNS` and the loop of `on_message`) -/

/-- `[a-zA-Z0-9]` (the program only feeds ASCII text to these classes). -/
def alnumC (c : Char) : Bool := c.isAlpha || c.isDigit

/-- `[a-zA-Z0-9_-]`. -/
def alnumDashC (c : Char) : Bool := alnumC c || c == '_' || c == '-'

/-- `[^/]`. -/
def notSlashC (c : Char) : Bool := !(c == '/')

/-- `[^\s]`. -/
def notSpaceC (c : Char) : Bool := !c.isWhitespace

/-- `.` outside DOTALL mode: any character except a newline. -/
def dotC (c : Char) : Bool := !(c == '\n')

/-- `\d+`. -/
def digitsPlus : RAtom := .cls Char.isDigit .plus

/-- `https?://`. -/
def httpScheme : List RAtom :=
  [.lit "http".data, .cls (fun c => c == 's') .optQ, .lit "://".data]

/-- `(?:www\.)?`. -/
def wwwOpt : RAtom := .opt [.lit "www.".data]

/-- `https?://(?:www\.)?facebook\.com/marketplace/item/\d+` -/
def fbPat1 : List RAtom :=
  httpScheme ++ [wwwOpt, .lit "facebook.com/marketplace/item/".data, digitsPlus]

/-- `https?://(?:www\.)?facebook\.com/marketplace/item\.php\?id=\d+` -/
def fbPat2 : List RAtom :=
  httpScheme ++ [wwwOpt, .lit "facebook.com/marketplace/item.php?id=".data, digitsPlus]

/-- `https?://(?:www\.)?fb\.com/marketplace/item/\d+` -/
def fbPat3 : List RAtom :=
  httpScheme ++ [wwwOpt, .lit "fb.com/marketplace/item/".data, digitsPlus]

/-- `https?://(?:www\.)?facebook\.com/share/[a-zA-Z0-9]+` -/
def fbPat4 : List RAtom :=
  httpScheme ++ [wwwOpt, .lit "facebook.com/share/".data, .cls alnumC .plus]

/-- `https?://(?:www\.)?facebook\.com/share/[a-zA-Z0-9]+/?(?:\?.*)?` -/
def fbPat5 : List RAtom :=
  httpScheme ++ [wwwOpt, .lit "facebook.com/share/".data, .cls alnumC .plus,
    .cls (fun c => c == '/') .optQ, .opt [.lit "?".data, .cls dotC .star]]

/-- `https?://(?:www\.)?facebook\.com/[^/]+/posts/[a-zA-Z0-9]+` -/
def fbPat6 : List RAtom :=
  httpScheme ++ [wwwOpt, .lit "facebook.com/".data, .cls notSlashC .plus,
    .lit "/posts/".data, .cls alnumC .plus]

/-- `https?://(?:www\.)?fb\.watch/[a-zA-Z0-9_-]+/?` -/
def fbPat7 : List RAtom :=
  httpScheme ++ [wwwOpt, .lit "fb.watch/".data, .cls alnumDashC .plus,
    .cls (fun c => c == '/') .optQ]

/-- `https?://(?:www\.)?fb\.me/[a-zA-Z0-9_-]+` -/
def fbPat8 : List RAtom :=
  httpScheme ++ [wwwOpt, .lit "fb.me/".data, .cls alnumDashC .plus]

/-- `https?://m\.facebook\.com/[^\s]+` -/
def fbPat9 : List RAtom :=
  httpScheme ++ [.lit "m.facebook.com/".data, .cls notSpaceC .plus]

/-- The `FB_PATTERNS` list, in source order. -/
def FB_PATTERNS : List (List RAtom) :=
  [fbPat1, fbPat2, fbPat3, fbPat4, fbPat5, fbPat6, fbPat7, fbPat8, fbPat9]

/-- The pattern loop of `on_message`: try each pattern in listed order
with `re.search` and return `match.group(0)` of the first that matches. -/
def fbSearchLoop : List (List RAtom) → String → Option String
  | [], _ => none
  | pat :: rest, content =>
    match reSearch pat content with
    | some m => some (String.mk m.matched)
    | none => fbSearchLoop rest content

/-- The URL matcher applied to an inbound message body. -/
def findFbUrl (content : String) : Option String :=
  fbSearchLoop FB_PATTERNS content

/-! ### The DOM model

The code observes the page through a fixed repertoire of queries: it
asks the driver for all elements matching a CSS selector string, asks a
container for its descendant elements matching a selector string or
holding a currency marker, and reads an element's rendered text, its
`src`/`width` attributes, whether some ancestor carries a carousel
`data-testid`, and its parent's text.  The model records exactly these
observations: an element carries the list of selector strings it
answers to together with the observable data, and a container carries
its descendant elements in document order.  CSS/XPath evaluation
itself is external to the program and is not re-verified. -/

/-- A leaf element as observed by the field extractors. -/
structure LeafElem where
  /-- `element.text` (already rendered). -/
  text : String
  /-- The CSS selector strings this element is returned for. -/
  sels : List String
  /-- `element.get_attribute("src")`. -/
  srcAttr : Option String
  /-- `element.get_attribute("width")`. -/
  widthAttr : Option String
  /-- Whether `./ancestor::*[contains(@data-testid, "carousel") or
  contains(@data-testid, "pdp_images")]` is non-empty. -/
  inCarousel : Bool
  /-- The text of the parent element (`./..`); `none` models a failing
  parent lookup (the code then uses the empty string). -/
  parentText : Option String
deriving DecidableEq

/-- A candidate main-listing container. -/
structure Container where
  /-- The CSS selector strings this container is returned for when the
  whole document is queried. -/
  sels : List String
  /-- Its descendant elements, in document order. -/
  children : List LeafElem
deriving DecidableEq

/-- The loaded page: all container-level elements in document order,
plus the `body` element used as the last-resort container. -/
structure Dom where
  containers : List Container
  body : Container
deriving DecidableEq

/-- `driver.find_elements(By.CSS_SELECTOR, sel)`. -/
def findElementsDoc (d : Dom) (sel : String) : List Container :=
  d.containers.filter (fun c => c.sels.contains sel)

/-- `container.find_elements(By.CSS_SELECTOR, sel)`. -/
def findEls (c : Container) (sel : String) : List LeafElem :=
  c.children.filter (fun e => e.sels.contains sel)

/-! ### `find_main_listing_container` -/

/-- The `container_selectors` list of `find_main_listing_container`. -/
def container_selectors : List String :=
  ["[data-testid=\x27marketplace_pdp_container\x27]",
   "[data-pagelet=\x27MarketplacePermalinkRoot\x27]",
   "div[role=\x27main\x27]",
   "div.x1qjc9v5.x78zum5.x1q0g3np",
   ".xrvj5dj.x1gslohp",
   ".x78zum5.xdt5ytf"]

/-- `len(container.find_elements(By.CSS_SELECTOR, "h1, [role='heading'],
span.x193iq5w")) > 0`. -/
def has_title (c : Container) : Bool :=
  (findEls c "h1, [role=\x27heading\x27], span.x193iq5w").length > 0

/-- `len(container.find_elements(By.XPATH, ".//*[contains(text(), '$')]")) > 0`. -/
def has_price (c : Container) : Bool :=
  (c.children.filter (fun e => substrIn "$" e.text)).length > 0

/-- The selector loop of `find_main_listing_container`: for each
selector in order, return the first matched container having both a
title-like descendant and a currency-bearing descendant. -/
def find_main_go (d : Dom) : List String → Container
  | [] => d.body
  | sel :: rest =>
    match (findElementsDoc d sel).find? (fun c => has_title c && has_price c) with
    | some c => c
    | none => find_main_go d rest

/-- `find_main_listing_container` (per-selector exceptions, which the
code logs and skips, are not represented: queries are total here). -/
def find_main_listing_container (d : Dom) : Container :=
  find_main_go d container_selectors

/-! ### `extract_title_from_container` -/

/-- The `title_selectors` list. -/
def title_selectors : List String :=
  ["h1",
   "[role=\x27heading\x27]",
   "[data-testid=\x27marketplace-listing-item-title\x27]",
   "[data-testid=\x27marketplace_pdp_title\x27]",
   ".x1heor9g",
   "span.x193iq5w",
   ".xt0psk2"]

/-- The combined acceptance test of the main title loop (outer filter
plus the nested multiple-price / "similar" check). -/
def titleCandidateOk (text : String) : Bool :=
  text != "" && decide (5 < text.length) && decide (text.length < 100)
    && !("Browse".isPrefixOf text) && !(substrIn "Create new listing" text)
    && decide (countChar '$' text ≤ 1) && !(substrIn "similar" text.toLower)

/-- The acceptance test of the `div[dir='auto']` title fallback loop. -/
def titleFallbackOk (text : String) : Bool :=
  text != "" && decide (10 < text.length) && decide (text.length < 100)
    && text.toUpper != text && decide (countChar '$' text ≤ 1)

/-- `extract_title_from_container`. -/
def extract_title_from_container (c : Container) : String :=
  match (title_selectors.flatMap (findEls c)).find?
      (fun e => titleCandidateOk e.text.trim) with
  | some e => e.text.trim
  | none =>
    match (findEls c "div[dir=\x27auto\x27]").find?
        (fun e => titleFallbackOk e.text.trim) with
    | some e => e.text.trim
    | none => "Title not found"

/-! ### `extract_price_from_container` -/

/-- The `price_selectors` list. -/
def price_selectors : List String :=
  ["[data-testid=\x27marketplace_pdp_price\x27]",
   "span.x193iq5w",
   ".x1j85h84",
   "h1 + span",
   ".x1fcty0u span"]

/-- `\$\s*[\d,]+(?:\.\d{2})?`. -/
def priceRegex : List RAtom :=
  [.lit "$".data, .cls Char.isWhitespace .star,
   .cls (fun c => c.isDigit || c == ',') .plus,
   .opt [.lit ".".data, .cls Char.isDigit (.exact 2)]]

/-- The acceptance test of the main price loop: a currency marker, a
digit, and at most one currency marker in the parent's text. -/
def priceMainOk (e : LeafElem) : Bool :=
  let text := e.text.trim
  substrIn "$" text && text.data.any Char.isDigit
    && decide (countChar '$' (e.parentText.getD "") ≤ 1)

/-- The cleanup applied to an accepted main-loop price text: when the
text is longer than 15 characters, prefer the currency-amount regex
match if there is one. -/
def cleanPrice (text : String) : String :=
  if 15 < text.length then
    match reSearch priceRegex text with
    | some m => (String.mk m.matched).trim
    | none => text
  else text

/-- The acceptance test of the XPath price fallback loop. -/
def priceFallbackOk (e : LeafElem) : Bool :=
  let text := e.text.trim
  substrIn "$" text && text.data.any Char.isDigit
    && decide (text.length < 30) && decide (countChar '$' text == 1)

/-- The value returned by the fallback loop (the regex match when it
exists, the raw text otherwise). -/
def priceFallbackValue (text : String) : String :=
  match reSearch priceRegex text with
  | some m => (String.mk m.matched).trim
  | none => text

/-- `extract_price_from_container`. -/
def extract_price_from_container (c : Container) : String :=
  match (price_selectors.flatMap (findEls c)).find? priceMainOk with
  | some e => cleanPrice e.text.trim
  | none =>
    match (c.children.filter (fun e => substrIn "$" e.text)).find? priceFallbackOk with
    | some e => priceFallbackValue e.text.trim
    | none => "Price not found"

/-! ### `extract_location_from_container` -/

/-- The `location_selectors` list. -/
def location_selectors : List String :=
  ["[data-testid=\x27marketplace_pdp_location\x27]",
   "div.x1xmf6yo",
   ".x1e56ztr",
   ".x1lliihq"]

/-- The acceptance test of the main location loop. -/
def locationOk (text : String) : Bool :=
  text != "" && decide (text.length < 100)
    && (substrIn "Location" text || substrIn "," text) && !(substrIn "$" text)

/-- The cleanup of an accepted location text: strip a leading
`Location:` label, then cut at the first navigational phrase. -/
def cleanLocation (text0 : String) : String :=
  let text1 :=
    if substrIn "Location" text0 && substrIn ":" text0 then
      (strAfterFirst text0 ":").trim
    else text0
  ["Browse all", "Categories", "Nearby", "Within"].foldl
    (fun t phrase => if substrIn phrase t then (strBeforeFirst t phrase).trim else t)
    text1

/-- The three fallback location patterns, in source order:
`Location[\s:]+([\w\s,]+)`, `in ([\w\s]+, [A-Z]{2})`, `([\w\s]+, [A-Z]{2})`. -/
def locPatterns : List (List RAtom) :=
  [[.lit "Location".data, .cls (fun c => c.isWhitespace || c == ':') .plus,
    .grp [.cls (fun c => alnumC c || c == '_' || c.isWhitespace || c == ',') .plus]],
   [.lit "in ".data,
    .grp [.cls (fun c => alnumC c || c == '_' || c.isWhitespace) .plus,
      .lit ", ".data, .cls Char.isUpper (.exact 2)]],
   [.grp [.cls (fun c => alnumC c || c == '_' || c.isWhitespace) .plus,
      .lit ", ".data, .cls Char.isUpper (.exact 2)]]]

/-- One iteration of the pattern-based fallback loop of
`extract_location_from_container`: the returned value for this element,
if any. -/
def locElemResult (e : LeafElem) : Option String :=
  let text := e.text.trim
  if text != "" && decide (text.length < 100) && !(substrIn "$" text) then
    match locPatterns.findSome? (fun p => (reSearch p text).bind MatchRes.group1) with
    | some g => some (String.mk g).trim
    | none =>
      if substrIn "," text && decide (text.length < 50) && !(substrIn "$" text) then
        let parts := text.splitOn ","
        if parts.length == 2 && parts.all (fun p => p.trim != "") then some text
        else none
      else none
  else none

/-- `extract_location_from_container`. -/
def extract_location_from_container (c : Container) : String :=
  match (location_selectors.flatMap (findEls c)).find?
      (fun e => locationOk e.text.trim) with
  | some e => cleanLocation e.text.trim
  | none =>
    match (findEls c "span, div").findSome? locElemResult with
    | some loc => loc
    | none => "Location not found"

/-! ### `extract_description_from_container` -/

/-- The `description_selectors` list. -/
def description_selectors : List String :=
  ["[data-testid=\x27marketplace_listing_item_description\x27]",
   "[data-testid=\x27marketplace_pdp_description\x27]",
   ".xz9dl7a",
   "[aria-label*=\x27description\x27]",
   ".x1gslohp",
   ".xw7yly9"]

/-- The acceptance test for description candidates. -/
def descCandOk (text : String) : Bool :=
  text != "" && decide (20 < text.length)
    && !(substrIn "Browse all" text) && !(substrIn "Categories" text)
    && !(substrIn "Nearby Cities" text) && decide (countChar '$' text ≤ 1)

/-- The interface-boilerplate phrases filtered out of the candidates. -/
def uiPhrases : List String :=
  ["browse all", "create new", "categories", "miles", "nearby"]

/-- Python `max(candidates, key=len)`: the first candidate of maximal
length. -/
def maxByLen (l : List String) : Option String :=
  l.foldl
    (fun acc t =>
      match acc with
      | none => some t
      | some b => if t.length > b.length then some t else some b)
    none

/-- The acceptance test of the `div[dir='auto']` description fallback. -/
def descFallbackOk (text : String) : Bool :=
  text != "" && decide (40 < text.length)
    && !(substrIn "Browse all" text) && !(substrIn "Categories" text)
    && decide (countChar '$' text ≤ 1)

/-- `extract_description_from_container`. -/
def extract_description_from_container (c : Container) : String :=
  let cands :=
    ((description_selectors.flatMap (findEls c)).map (fun e => e.text.trim)).filter
      descCandOk
  if cands != [] then
    let filtered :=
      cands.filter (fun t => !(uiPhrases.any (fun x => substrIn x t.toLower)))
    match maxByLen (if filtered != [] then filtered else cands) with
    | some t => t
    | none => "Description not found"
  else
    let fallbackCands :=
      ((findEls c "div[dir=\x27auto\x27]").map (fun e => e.text.trim)).filter
        descFallbackOk
    match maxByLen fallbackCands with
    | some t => t
    | none => "Description not found"

/-! ### `extract_images_from_container` -/

/-- The `image_selectors` list. -/
def image_selectors : List String :=
  ["[data-testid=\x27marketplace_pdp_images\x27] img",
   "[data-testid=\x27marketplace_pdp_carousel\x27] img",
   "[data-testid=\x27marketplace-pdp-image\x27] img",
   ".x5yr21d img",
   ".x1rg5ohu img",
   ".x6ikm8r img",
   "img[src*=\x27scontent\x27]",
   "img[alt*=\x27product\x27]",
   "img[data-visualcompletion=\x27media-vc-image\x27]"]

/-- The width filter: `if width and int(width) < 50: continue`.  A
non-empty width that fails integer parsing raises in the code and the
per-image exception handler skips the element, so that case also skips
(`int(...)` is modelled by `String.toInt?`). -/
def widthSkip (w : Option String) : Bool :=
  match w with
  | none => false
  | some s =>
    if s == "" then false
    else
      match s.toInt? with
      | none => true
      | some n => decide (n < 50)

/-- Whether an image element passes all filters, given the URLs already
collected (deduplication). -/
def imgQualifies (e : LeafElem) (acc : List String) : Bool :=
  match e.srcAttr with
  | none => false
  | some src =>
    src != "" && substrIn "scontent" src && decide (20 < src.length)
      && !(acc.contains src) && !(widthSkip e.widthAttr)

/-- The inner image loop over the matches of one selector.  `Sum.inr`
is the early return on a carousel-nested image; `Sum.inl` carries the
accumulated URL list to the next selector. -/
def imgStep : List LeafElem → List String → Sum (List String) (List String)
  | [], acc => Sum.inl acc
  | e :: rest, acc =>
    if imgQualifies e acc then
      let src := e.srcAttr.getD ""
      if e.inCarousel then Sum.inr [src]
      else imgStep rest (acc ++ [src])
    else imgStep rest acc

/-- The outer loop of `extract_images_from_container` over the selector
list. -/
def imgSelLoop : List String → Container → List String → Sum (List String) (List String)
  | [], _, acc => Sum.inl acc
  | sel :: rest, c, acc =>
    match imgStep (findEls c sel) acc with
    | Sum.inr r => Sum.inr r
    | Sum.inl acc2 => imgSelLoop rest c acc2

/-- `extract_images_from_container`. -/
def extract_images_from_container (c : Container) : List String :=
  match imgSelLoop image_selectors c [] with
  | Sum.inr r => r
  | Sum.inl acc =>
    match acc with
    | [] => []
    | x :: _ => [x]

/-! ### The scraping pipeline `scrape_facebook_marketplace`

External behaviour is supplied by an `Env` value: whether
`setup_webdriver` returned a driver, whether the heading wait timed out
(logged and tolerated), whether an unexpected exception was raised
during navigation (caught at the pipeline boundary), and the document
as seen at the first container acquisition and at the retry
re-acquisition (the DOM may shift between the two).  The pipeline also
produces an event trace recording container acquisitions, extractor
invocations, the retry pass and the `driver.quit()` teardown performed
by the `finally` block. -/

/-- The externally-determined behaviour of one scrape invocation. -/
structure Env where
  /-- `setup_webdriver()` returned a driver (not `None`). -/
  driverOk : Bool
  /-- The 20-unit heading wait raised `TimeoutException` (tolerated). -/
  loadTimeout : Bool
  /-- An unexpected exception with this message was raised inside the
  `try` block (during `driver.get`); `none` means normal execution. -/
  navFault : Option String
  /-- The document at the first `find_main_listing_container` call. -/
  dom1 : Dom
  /-- The document at the retry re-acquisition. -/
  dom2 : Dom
deriving DecidableEq

/-- Observable events of one scrape invocation, in order. -/
inductive Event where
  | quitDriver
  | acquireContainer
  | retryPass
  | callTitle
  | callPrice
  | callLocation
  | callDescription
  | callImages
deriving DecidableEq

/-- The structured output of the pipeline. -/
structure ListingRecord where
  title : String
  price : String
  location : String
  description : String
  image_url : Option String
  success : Bool
deriving DecidableEq

/-- The record returned when `setup_webdriver` yields no driver. -/
def setupFailRecord : ListingRecord :=
  { title := "Error setting up web browser"
    price := "Unknown"
    location := "Unknown"
    description := "Could not initialize the browser to fetch content details."
    image_url := none
    success := false }

/-- The record built by the outermost `except` handler. -/
def scrapeErrorRecord (msg : String) : ListingRecord :=
  { title := "Error fetching listing"
    price := "Unknown"
    location := "Unknown"
    description := "Could not retrieve listing details. Error: " ++ msg
    image_url := none
    success := false }

/-- `is_marketplace = "marketplace" in url`. -/
def isMarketplace (url : String) : Bool :=
  substrIn "marketplace" url

/-- The field values after one extraction pass. -/
structure PassResult where
  title : String
  price : String
  location : String
  description : String
  images : List String
deriving DecidableEq

/-- The first extraction pass: locate the container, extract the title,
extract price and location only for marketplace URLs (otherwise both
are the distinct sentinel `"N/A"`), then description and images. -/
def pass1 (url : String) (d : Dom) : PassResult :=
  let c := find_main_listing_container d
  { title := extract_title_from_container c
    price := if isMarketplace url then extract_price_from_container c else "N/A"
    location := if isMarketplace url then extract_location_from_container c else "N/A"
    description := extract_description_from_container c
    images := extract_images_from_container c }

/-- The retry condition: `is_marketplace and (price == "Price not
found" or location == "Location not found" or not image_urls)`. -/
def needRetry (url : String) (p : PassResult) : Bool :=
  isMarketplace url
    && (p.price == "Price not found" || p.location == "Location not found"
        || p.images.isEmpty)

/-- The retry body: re-acquire the container from the (possibly
shifted) document and re-extract exactly the fields still holding
their sentinel (or the empty image list); found fields are kept. -/
def retryPassResult (p : PassResult) (d2 : Dom) : PassResult :=
  let c := find_main_listing_container d2
  { title := if p.title == "Title not found" then extract_title_from_container c
             else p.title
    price := if p.price == "Price not found" then extract_price_from_container c
             else p.price
    location := if p.location == "Location not found" then
                  extract_location_from_container c
                else p.location
    description := p.description
    images := if p.images.isEmpty then extract_images_from_container c
              else p.images }

/-- The field values after the (at most one) retry pass. -/
def pass2 (url : String) (p : PassResult) (d2 : Dom) : PassResult :=
  if needRetry url p then retryPassResult p d2 else p

/-- The post-processing validation of the title: a title holding more
than one currency marker is discarded for the generic fallback. -/
def validateTitle (t : String) : String :=
  if 1 < countChar '$' t then "Facebook Marketplace Listing" else t

/-- The successful return value of the pipeline. -/
def successRecord (p : PassResult) : ListingRecord :=
  { title := validateTitle p.title
    price := p.price
    location := p.location
    description := p.description
    image_url := p.images.head?
    success := true }

/-- The events of the first extraction pass. -/
def pass1Trace (url : String) : List Event :=
  [.acquireContainer, .callTitle]
    ++ (if isMarketplace url then [.callPrice, .callLocation] else [])
    ++ [.callDescription, .callImages]

/-- The events of the retry body. -/
def retryTrace (p : PassResult) : List Event :=
  [.retryPass, .acquireContainer]
    ++ (if p.title == "Title not found" then [.callTitle] else [])
    ++ (if p.price == "Price not found" then [.callPrice] else [])
    ++ (if p.location == "Location not found" then [.callLocation] else [])
    ++ (if p.images.isEmpty then [.callImages] else [])

/-- The events contributed by the retry step. -/
def pass2Trace (url : String) (p : PassResult) : List Event :=
  if needRetry url p then retryTrace p else []

/-- `scrape_facebook_marketplace`: returns the listing record together
with the event trace of the invocation.  The function is total — every
fault is converted to an error-shaped record, none escapes.  When no
driver could be started the code returns before the `try` block, so no
teardown happens (and no session exists); on both the normal and the
exceptional path the `finally` block emits exactly one
`quitDriver`. -/
def scrape (url : String) (env : Env) : ListingRecord × List Event :=
  if env.driverOk then
    match env.navFault with
    | some msg => (scrapeErrorRecord msg, [.quitDriver])
    | none =>
      let p1 := pass1 url env.dom1
      (successRecord (pass2 url p1 env.dom2),
       pass1Trace url ++ pass2Trace url p1 ++ [.quitDriver])
  else (setupFailRecord, [])

/-! ### The presenter (the reply-building part of `on_message`) -/

/-- A named field of the outbound embed. -/
structure EmbedField where
  name : String
  value : String
  isInline : Bool
deriving DecidableEq

/-- The outbound reply embed (the timestamp is omitted: it is wall
clock time, outside the model). -/
structure Embed where
  title : String
  url : Option String
  color : Nat
  image : Option String
  description : Option String
  fields : List EmbedField
  footer : Option String
deriving DecidableEq

/-- The title substitution of the success branch. -/
def presentTitle (t fb_url : String) : String :=
  if t == "Title not found" || substrIn "Browse all" t then
    if substrIn "marketplace" fb_url then "Facebook Marketplace Listing"
    else "Facebook Post"
  else t

/-- The price substitutions of the success branch: the sentinel becomes
`"Not listed"`, and the final validation replaces any price still
holding more than one currency marker by `"Not listed"`. -/
def presentPrice (p : String) : String :=
  let p1 := if p == "Price not found" then "Not listed" else p
  if 1 < countChar '$' p1 then "Not listed" else p1

/-- The location substitutions of the success branch. -/
def presentLocation (l : String) : String :=
  if l == "Location not found" then "Not specified"
  else if substrIn "Location" l then
    ((l.replace "Location" "").replace ":" "").trim
  else l

/-- The boilerplate phrases searched in the description. -/
def presenterPhrases : List String :=
  ["Browse all", "Categories", "Nearby Cities", "Create new listing",
   "Your account"]

/-- One phrase step of the description cleaning: split at the phrase
and keep the longer side, stripped. -/
def splitKeepLonger (d phrase : String) : String :=
  if substrIn phrase d then
    let pre := strBeforeFirst d phrase
    let post := strAfterFirst d phrase
    if pre.length > post.length then pre.trim else post.trim
  else d

/-- The description substitutions of the success branch. -/
def presentDescription (d : String) : String :=
  if d == "Description not found" then "No description available"
  else
    let d1 := presenterPhrases.foldl splitKeepLonger d
    if 2 < countChar '$' d1 then "Description not available" else d1

/-- The length guard on the description: anything longer than 1024
characters is cut to its first 1021 characters plus `"..."`. -/
def truncateDescription (d : String) : String :=
  if 1024 < d.length then pyTake d 1021 ++ "..." else d

/-- `embed.set_image(url=image_url)` is guarded by Python truthiness:
an empty string is falsy and sets no image. -/
def presentImage (i : Option String) : Option String :=
  match i with
  | none => none
  | some s => if s == "" then none else some s

/-- The lowercase phrases that suppress the post-style description. -/
def postSuppressPhrases : List String :=
  ["browse all", "create new", "categories"]

/-- The name of the price field (with its emoji prefix). -/
def priceFieldName : String := "💰 Price"

/-- The name of the location field. -/
def locationFieldName : String := "📍 Location"

/-- The name of the description field. -/
def descriptionFieldName : String := "📝 Description"

/-- The success reply embed built by `on_message` from a successful
`ListingRecord`. -/
def buildSuccessEmbed (r : ListingRecord) (fb_url authorName : String) : Embed :=
  let title := presentTitle r.title fb_url
  let price := presentPrice r.price
  let location := presentLocation r.location
  let description0 := presentDescription r.description
  let marketStyle :=
    substrIn "marketplace" fb_url || (price != "Not listed" && price != "N/A")
  let description := truncateDescription description0
  if marketStyle then
    { title := title
      url := some fb_url
      color := 0x1877F2
      image := presentImage r.image_url
      description := none
      fields :=
        [{ name := priceFieldName, value := price, isInline := true },
         { name := locationFieldName, value := location, isInline := true }]
          ++ (if description != "" && description != "No description available"
                && description != "Description not found" then
                [{ name := descriptionFieldName, value := description,
                   isInline := false }]
              else [])
      footer := some ("Requested by " ++ authorName ++ " | Marketplace Listing") }
  else
    { title := title
      url := some fb_url
      color := 0x1877F2
      image := presentImage r.image_url
      description :=
        if 50 < description.length
            && !(postSuppressPhrases.any (fun x => substrIn x description.toLower)) then
          some description
        else none
      fields := []
      footer := some ("Requested by " ++ authorName ++ " | Facebook Post") }

/-- The error reply embed: a red embed holding only the original link
as a field — no listing fields, no image. -/
def buildErrorEmbed (fb_url : String) : Embed :=
  { title := "Error Fetching Details"
    url := none
    color := 0xFF0000
    image := none
    description := some "I couldn\x27t retrieve the details from this Facebook link."
    fields := [{ name := "Link", value := fb_url, isInline := false }]
    footer := none }

/-! ### `on_message` -/

/-- The per-message context of `on_message`. -/
structure MsgCtx where
  /-- The author is the bot itself. -/
  fromBot : Bool
  /-- The message is in the configured channel. -/
  channelOk : Bool
  /-- The external behaviour of the scrape this message may trigger. -/
  env : Env
  /-- `message.author.display_name`. -/
  authorName : String

/-- `on_message`: `none` means no reply is sent for the message (the
interim processing notice, posted on match and deleted before the final
reply, is not part of the result). -/
def on_message (ctx : MsgCtx) (content : String) : Option Embed :=
  if ctx.fromBot then none
  else if !ctx.channelOk then none
  else
    match findFbUrl content with
    | none => none
    | some fb_url =>
      let listing := (scrape fb_url ctx.env).1
      some (if listing.success then buildSuccessEmbed listing fb_url ctx.authorName
            else buildErrorEmbed fb_url)

/-! ### The Container Locator as the specification words it -/

/-- The Container Locator per the specification text: the first
candidate, in selector-list order, containing both a heading-like
descendant and a currency-bearing descendant; the whole page body when
no selector yields a qualifying candidate. -/
def specMainContainer (d : Dom) : Container :=
  (container_selectors.findSome? (fun sel =>
    (findElementsDoc d sel).find? (fun c => has_title c && has_price c))).getD
    d.body

/-! ### Concrete fixtures used by witnesses and scenarios -/

/-- A container with no descendant elements. -/
def emptyContainer : Container := { sels := [], children := [] }

/-- A page on which every query comes back empty. -/
def emptyDom : Dom := { containers := [], body := emptyContainer }

/-- A normally-behaving environment over the empty page. -/
def plainEnv : Env :=
  { driverOk := true, loadTimeout := false, navFault := none,
    dom1 := emptyDom, dom2 := emptyDom }

/-- An environment in which `setup_webdriver` returns no driver. -/
def failEnv : Env :=
  { driverOk := false, loadTimeout := false, navFault := none,
    dom1 := emptyDom, dom2 := emptyDom }

/-- An environment in which navigation raises an unexpected fault. -/
def faultEnv : Env :=
  { driverOk := true, loadTimeout := false, navFault := some "boom",
    dom1 := emptyDom, dom2 := emptyDom }

/-- A qualifying image returned by the first image selector, not under
the carousel. -/
def imgElemA : LeafElem :=
  { text := ""
    sels := ["[data-testid=\x27marketplace_pdp_images\x27] img"]
    srcAttr := some "https://scontent-a.example.net/imageA.jpg"
    widthAttr := none
    inCarousel := false
    parentText := none }

/-- A qualifying image returned by the second image selector, nested
under the primary carousel marker. -/
def imgElemB : LeafElem :=
  { text := ""
    sels := ["[data-testid=\x27marketplace_pdp_carousel\x27] img"]
    srcAttr := some "https://scontent-b.example.net/imageB.jpg"
    widthAttr := none
    inCarousel := true
    parentText := none }

/-- The same element without the carousel ancestor. -/
def imgElemBPlain : LeafElem :=
  { imgElemB with inCarousel := false }

/-- A qualifying image returned only by a later selector. -/
def imgElemC : LeafElem :=
  { text := ""
    sels := ["img[src*=\x27scontent\x27]"]
    srcAttr := some "https://scontent-c.example.net/imageC.jpg"
    widthAttr := none
    inCarousel := false
    parentText := none }

/-- The carousel scenario of the specification: a plain qualifying
image on the first selector, a carousel-nested one on the second, and
another qualifying image on a later selector. -/
def carouselScenario : Container :=
  { sels := [], children := [imgElemA, imgElemB, imgElemC] }

/-- The same page without the carousel marker. -/
def plainImgScenario : Container :=
  { sels := [], children := [imgElemA, imgElemBPlain, imgElemC] }

/-- A description of 1025 characters, for the truncation witness. -/
def longDescription : String := String.mk (List.replicate 1025 'a')

/-! ## Helper lemmas -/

theorem fbSearchLoop_eq (content : String) (pats : List (List RAtom)) :
    fbSearchLoop pats content
      = pats.findSome?
          (fun pat => (reSearch pat content).map (fun m => String.mk m.matched)) := by
  induction pats with
  | nil => rfl
  | cons pat rest ih =>
    simp only [fbSearchLoop, List.findSome?]
    cases h : reSearch pat content <;> simp [h, ih]

theorem find_main_go_eq (d : Dom) (sels : List String) :
    find_main_go d sels
      = (sels.findSome? (fun sel =>
          (findElementsDoc d sel).find? (fun c => has_title c && has_price c))).getD
          d.body := by
  induction sels with
  | nil => rfl
  | cons sel rest ih =>
    simp only [find_main_go, List.findSome?]
    cases h : (findElementsDoc d sel).find? (fun c => has_title c && has_price c) <;>
      simp [h, ih]

theorem find_main_go_qualifies (d : Dom) (sels : List String) :
    find_main_go d sels = d.body
      ∨ (has_title (find_main_go d sels) = true
          ∧ has_price (find_main_go d sels) = true) := by
  induction sels with
  | nil => exact Or.inl rfl
  | cons sel rest ih =>
    simp only [find_main_go]
    cases h : (findElementsDoc d sel).find? (fun c => has_title c && has_price c) with
    | none => exact ih
    | some c =>
      have hq := List.find?_some h
      right
      simpa [Bool.and_eq_true] using hq

theorem imgStep_inr_length (els : List LeafElem) :
    ∀ (acc r : List String), imgStep els acc = Sum.inr r → r.length = 1 := by
  induction els with
  | nil => intro acc r h; simp [imgStep] at h
  | cons e rest ih =>
    intro acc r h
    simp only [imgStep] at h
    split at h
    · split at h
      · simp only [Sum.inr.injEq] at h
        subst h
        rfl
      · exact ih _ _ h
    · exact ih _ _ h

theorem imgSelLoop_inr_length (sels : List String) (c : Container) :
    ∀ (acc r : List String), imgSelLoop sels c acc = Sum.inr r → r.length = 1 := by
  induction sels with
  | nil => intro acc r h; simp [imgSelLoop] at h
  | cons sel rest ih =>
    intro acc r h
    simp only [imgSelLoop] at h
    cases hstep : imgStep (findEls c sel) acc with
    | inr r2 =>
      rw [hstep] at h
      simp only [Sum.inr.injEq] at h
      subst h
      exact imgStep_inr_length _ _ _ hstep
    | inl acc2 =>
      rw [hstep] at h
      exact ih _ _ h

theorem pass1Trace_count_quit (url : String) :
    (pass1Trace url).count Event.quitDriver = 0 := by
  unfold pass1Trace; split <;> decide

theorem pass1Trace_count_acquire (url : String) :
    (pass1Trace url).count Event.acquireContainer = 1 := by
  unfold pass1Trace; split <;> decide

theorem pass1Trace_count_retry (url : String) :
    (pass1Trace url).count Event.retryPass = 0 := by
  unfold pass1Trace; split <;> decide

theorem retryTrace_count_quit (p : PassResult) :
    (retryTrace p).count Event.quitDriver = 0 := by
  unfold retryTrace; split <;> split <;> split <;> split <;> decide

theorem retryTrace_count_acquire (p : PassResult) :
    (retryTrace p).count Event.acquireContainer = 1 := by
  unfold retryTrace; split <;> split <;> split <;> split <;> decide

theorem retryTrace_count_retry (p : PassResult) :
    (retryTrace p).count Event.retryPass = 1 := by
  unfold retryTrace; split <;> split <;> split <;> split <;> decide

theorem pass2Trace_count_quit (url : String) (p : PassResult) :
    (pass2Trace url p).count Event.quitDriver = 0 := by
  unfold pass2Trace
  split
  · exact retryTrace_count_quit p
  · rfl

/-! ## Claims -/

/-- C1: whenever a browser session was successfully created
(`env.driverOk = true`), every exit path of the scrape — normal
completion, the internal retry path, and the caught-exception path —
performs the `driver.quit` teardown exactly once. -/
theorem c1_session_teardown (url : String) (env : Env)
    (h : env.driverOk = true) :
    (scrape url env).2.count Event.quitDriver = 1 := by
  simp only [scrape, h, if_true]
  cases hn : env.navFault with
  | some msg => rfl
  | none =>
    simp [List.count_append, pass1Trace_count_quit, pass2Trace_count_quit]

/-- Witness for C1 at a concrete environment. -/
theorem c1_session_teardown_witness :
    plainEnv.driverOk = true
      ∧ (scrape "https://www.facebook.com/marketplace/item/1" plainEnv).2.count
          Event.quitDriver = 1 :=
  ⟨rfl, c1_session_teardown "https://www.facebook.com/marketplace/item/1" plainEnv rfl⟩

/-- C2: every `ListingRecord` returned with `success = false` has
`image_url = none` and a non-empty human-readable error description
(the pipeline is a total function, so no exception crosses its
boundary), and the error reply embed carries only the original link as
a field and no image. -/
theorem c2_error_record_shape :
    (∀ (url : String) (env : Env),
        (scrape url env).1.success = false →
          (scrape url env).1.image_url = none
            ∧ (scrape url env).1.description ≠ "")
      ∧ (∀ u : String,
          (buildErrorEmbed u).fields
              = [{ name := "Link", value := u, isInline := false }]
            ∧ (buildErrorEmbed u).image = none) := by
  constructor
  · intro url env h
    simp only [scrape] at h ⊢
    cases hd : env.driverOk with
    | false =>
      simp only [hd, Bool.false_eq_true, if_false]
      exact ⟨rfl, by decide⟩
    | true =>
      simp only [hd, if_true] at h ⊢
      cases hn : env.navFault with
      | some msg =>
        simp only [hn]
        refine ⟨rfl, fun hc => ?_⟩
        have hlen := congrArg String.length hc
        simp only [scrapeErrorRecord, String.length_append] at hlen
        have h0 : 0 < ("Could not retrieve listing details. Error: " : String).length := by
          decide
        have he : ("" : String).length = 0 := rfl
        omega
      | none =>
        rw [hn] at h
        simp [successRecord] at h
  · intro u
    exact ⟨rfl, rfl⟩

/-- Witness for C2 at a concrete failing environment. -/
theorem c2_error_record_shape_witness :
    (scrape "u" failEnv).1.success = false
      ∧ ((scrape "u" failEnv).1.image_url = none
          ∧ (scrape "u" failEnv).1.description ≠ "") :=
  ⟨by decide, c2_error_record_shape.1 "u" failEnv (by decide)⟩

/-- C3: the URL matcher tries the `FB_PATTERNS` list in listed order
and returns the leftmost match of the first pattern that matches; when
no pattern matches, no match is returned (even if the text contains
other URLs) and `on_message` takes no further action; and on the
scenario input the returned match is exactly the marketplace item
permalink. -/
theorem c3_url_matcher :
    (∀ content : String,
        findFbUrl content
          = FB_PATTERNS.findSome?
              (fun pat => (reSearch pat content).map (fun m => String.mk m.matched)))
      ∧ (∀ content : String,
          (∀ pat ∈ FB_PATTERNS, reSearch pat content = none) →
            findFbUrl content = none)
      ∧ (∀ (ctx : MsgCtx) (content : String),
          findFbUrl content = none → on_message ctx content = none)
      ∧ findFbUrl
          "check this out https://www.facebook.com/marketplace/item/123456789 thanks"
          = some "https://www.facebook.com/marketplace/item/123456789"
      ∧ findFbUrl "check this out https://www.google.com/maps/place/1 thanks" = none := by
  refine ⟨fun content => fbSearchLoop_eq content FB_PATTERNS, ?_, ?_, by decide, by decide⟩
  · intro content h
    simp only [findFbUrl]
    rw [fbSearchLoop_eq content FB_PATTERNS, List.findSome?_eq_none_iff]
    intro pat hp
    rw [h pat hp]
    rfl
  · intro ctx content h
    simp only [on_message, h]
    split
    · rfl
    · split <;> rfl

/-- Witness for C3: a message with a non-Facebook URL produces no match
and no reply. -/
theorem c3_url_matcher_witness :
    findFbUrl "check https://example.com/page now" = none
      ∧ on_message
          { fromBot := false, channelOk := true, env := plainEnv, authorName := "u" }
          "check https://example.com/page now" = none :=
  ⟨by decide,
   c3_url_matcher.2.2.1
     { fromBot := false, channelOk := true, env := plainEnv, authorName := "u" }
     "check https://example.com/page now" (by decide)⟩

/-- C4: on a normally-completing invocation the pipeline performs at
most one retry pass; the retry happens exactly when the URL is
marketplace-shaped and price, location or image is still missing after
pass one; the retry re-acquires the container (so a retrying run
acquires twice, a non-retrying run once); every already-found field —
price, location, images, and an already-found title — keeps its
pass-one value, and the description (never re-extracted) always keeps
its pass-one value; and a re-extracted field is extracted from the
container re-located on the second document. -/
theorem c4_retry_logic (url : String) (env : Env)
    (hd : env.driverOk = true) (hn : env.navFault = none) :
    (scrape url env).2.count Event.retryPass ≤ 1
      ∧ (Event.retryPass ∈ (scrape url env).2
          ↔ (isMarketplace url = true
              ∧ ((pass1 url env.dom1).price = "Price not found"
                  ∨ (pass1 url env.dom1).location = "Location not found"
                  ∨ (pass1 url env.dom1).images = [])))
      ∧ (needRetry url (pass1 url env.dom1) = true →
          (scrape url env).2.count Event.acquireContainer = 2)
      ∧ (needRetry url (pass1 url env.dom1) = false →
          (scrape url env).2.count Event.acquireContainer = 1)
      ∧ ((pass1 url env.dom1).price ≠ "Price not found" →
          (scrape url env).1.price = (pass1 url env.dom1).price)
      ∧ ((pass1 url env.dom1).location ≠ "Location not found" →
          (scrape url env).1.location = (pass1 url env.dom1).location)
      ∧ ((pass1 url env.dom1).images ≠ [] →
          (scrape url env).1.image_url = (pass1 url env.dom1).images.head?)
      ∧ ((pass1 url env.dom1).title ≠ "Title not found" →
          (scrape url env).1.title = validateTitle (pass1 url env.dom1).title)
      ∧ (scrape url env).1.description = (pass1 url env.dom1).description
      ∧ (needRetry url (pass1 url env.dom1) = true →
          (pass1 url env.dom1).price = "Price not found" →
          (scrape url env).1.price
            = extract_price_from_container (find_main_listing_container env.dom2)) := by
  simp only [scrape, hd, hn, if_true]
  refine ⟨?_, ?_, ?_, ?_, ?_, ?_, ?_, ?_, ?_, ?_⟩
  · simp only [List.count_append, pass1Trace_count_retry, pass2Trace]
    split
    · rw [retryTrace_count_retry]
      decide
    · decide
  · have h1 : Event.retryPass ∉ pass1Trace url := by
      unfold pass1Trace; split <;> decide
    have h2 : Event.retryPass ∈ pass2Trace url (pass1 url env.dom1)
        ↔ needRetry url (pass1 url env.dom1) = true := by
      unfold pass2Trace
      split
      case isTrue hr =>
        simp only [hr, iff_true]
        simp [retryTrace]
      case isFalse hr =>
        simp [hr]
    rw [List.mem_append, List.mem_append]
    simp only [h2, List.mem_singleton]
    constructor
    · intro hor
      rcases hor with (hor | hor) | hor
      · exact absurd hor h1
      · have hr := hor
        simp only [needRetry, Bool.and_eq_true, Bool.or_eq_true, beq_iff_eq,
          List.isEmpty_iff] at hr
        obtain ⟨hm, h3⟩ := hr
        exact ⟨hm, by tauto⟩
      · exact absurd hor (by decide)
    · intro hr
      left; right
      simp only [needRetry, Bool.and_eq_true, Bool.or_eq_true, beq_iff_eq,
        List.isEmpty_iff]
      obtain ⟨hm, h3⟩ := hr
      exact ⟨hm, by tauto⟩
  · intro hr
    simp [List.count_append, pass1Trace_count_acquire, pass2Trace, hr,
      retryTrace_count_acquire]
  · intro hr
    simp [List.count_append, pass1Trace_count_acquire, pass2Trace, hr]
  · intro hp
    simp only [successRecord, pass2]
    split
    · simp [retryPassResult, hp]
    · rfl
  · intro hl
    simp only [successRecord, pass2]
    split
    · simp [retryPassResult, hl]
    · rfl
  · intro hi
    simp only [successRecord, pass2]
    split
    · simp [retryPassResult, List.isEmpty_iff, hi]
    · rfl
  · intro ht
    simp only [successRecord, pass2]
    split
    · simp [retryPassResult, ht]
    · rfl
  · simp only [successRecord, pass2]
    split
    · simp [retryPassResult]
    · rfl
  · intro hr hp
    simp [successRecord, pass2, hr, retryPassResult, hp]

/-- Witness for C4: on the empty page a marketplace URL misses its
price, so the retry runs and the container is acquired twice. -/
theorem c4_retry_logic_witness :
    needRetry "https://www.facebook.com/marketplace/item/1"
        (pass1 "https://www.facebook.com/marketplace/item/1" plainEnv.dom1) = true
      ∧ (scrape "https://www.facebook.com/marketplace/item/1" plainEnv).2.count
          Event.acquireContainer = 2 :=
  ⟨by decide,
   (c4_retry_logic "https://www.facebook.com/marketplace/item/1" plainEnv rfl
       rfl).2.2.1 (by decide)⟩

/-- C5: the Container Locator returns the first candidate, in
selector-list order, containing both a heading-like descendant and a
currency-bearing descendant, and falls back to the page body otherwise;
it never returns a non-body container lacking either discriminator. -/
theorem c5_container_locator (d : Dom) :
    find_main_listing_container d = specMainContainer d
      ∧ (find_main_listing_container d = d.body
          ∨ (has_title (find_main_listing_container d) = true
              ∧ has_price (find_main_listing_container d) = true)) := by
  constructor
  · unfold find_main_listing_container specMainContainer
    exact find_main_go_eq d container_selectors
  · unfold find_main_listing_container
    exact find_main_go_qualifies d container_selectors

/-- C6: the final sanity check replaces any title holding more than one
currency marker by the generic fallback; the pipeline's returned title
is exactly the sanity check applied to the extracted (and possibly
retried) title; the scenario title with two currency markers becomes
the fallback; and the presenter passes the fallback title through
unchanged. -/
theorem c6_title_sanity (t url name : String) (env : Env)
    (hd : env.driverOk = true) (hn : env.navFault = none) :
    (1 < countChar '$' t → validateTitle t = "Facebook Marketplace Listing")
      ∧ (scrape url env).1.title
          = validateTitle (pass2 url (pass1 url env.dom1) env.dom2).title
      ∧ validateTitle "iPhone 13 Pro - $600 - $650 (bundle)"
          = "Facebook Marketplace Listing"
      ∧ (∀ r : ListingRecord, r.title = "Facebook Marketplace Listing" →
          (buildSuccessEmbed r url name).title = "Facebook Marketplace Listing") := by
  refine ⟨?_, ?_, by decide, ?_⟩
  · intro h
    unfold validateTitle
    rw [if_pos h]
  · simp [scrape, hd, hn, successRecord]
  · intro r hr
    have hB : substrIn "Browse all" "Facebook Marketplace Listing" = false := by decide
    simp only [buildSuccessEmbed]
    split <;> simp [presentTitle, hr, hB]

/-- Witness for C6 at the scenario title. -/
theorem c6_title_sanity_witness :
    1 < countChar '$' "iPhone 13 Pro - $600 - $650 (bundle)"
      ∧ validateTitle "iPhone 13 Pro - $600 - $650 (bundle)"
          = "Facebook Marketplace Listing" :=
  ⟨by decide,
   (c6_title_sanity "iPhone 13 Pro - $600 - $650 (bundle)" "u" "n" plainEnv rfl
       rfl).1 (by decide)⟩

/-- C7: the image extractor always yields at most one URL.  On the
specification scenario — a qualifying image nested under the primary
carousel marker found on the second candidate selector — extraction
returns exactly that one URL, overriding the image already collected
from the first selector and never reaching the later selector whose
image also qualifies; without the carousel marker the same page yields
only the first collected URL. -/
theorem c7_image_single :
    (∀ c : Container, (extract_images_from_container c).length ≤ 1)
      ∧ extract_images_from_container carouselScenario
          = ["https://scontent-b.example.net/imageB.jpg"]
      ∧ extract_images_from_container plainImgScenario
          = ["https://scontent-a.example.net/imageA.jpg"] := by
  refine ⟨?_, by decide, by decide⟩
  intro c
  unfold extract_images_from_container
  cases h : imgSelLoop image_selectors c [] with
  | inr r =>
    have hlen := imgSelLoop_inr_length image_selectors c [] r h
    show r.length ≤ 1
    omega
  | inl acc =>
    show (match acc with | [] => [] | x :: _ => [x]).length ≤ 1
    cases acc <;> simp

/-- C8: after the validation pass the presented price never holds more
than one currency marker: any price reaching the presenter with more
than one `$` is replaced by `"Not listed"`, the presented price always
has at most one `$`, and consequently so does the price field of every
success embed. -/
theorem c8_price_validation :
    (∀ p : String, 1 < countChar '$' p → presentPrice p = "Not listed")
      ∧ (∀ p : String, countChar '$' (presentPrice p) ≤ 1)
      ∧ (∀ (r : ListingRecord) (url name : String) (f : EmbedField),
          f ∈ (buildSuccessEmbed r url name).fields → f.name = priceFieldName →
            countChar '$' f.value ≤ 1) := by
  have hle : ∀ p : String, countChar '$' (presentPrice p) ≤ 1 := by
    intro p
    unfold presentPrice
    by_cases hs : p = "Price not found"
    · subst hs
      decide
    · have hne : ¬((p == "Price not found") = true) := by simpa using hs
      rw [if_neg hne]
      by_cases h1 : 1 < countChar '$' p
      · rw [if_pos h1]
        decide
      · rw [if_neg h1]
        omega
  refine ⟨?_, hle, ?_⟩
  · intro p h
    unfold presentPrice
    have hs : ¬(p = "Price not found") := by
      intro he
      subst he
      exact absurd h (by decide)
    have hne : ¬((p == "Price not found") = true) := by simpa using hs
    rw [if_neg hne, if_pos h]
  · intro r url name f hf hname
    simp only [buildSuccessEmbed] at hf
    split at hf
    · rw [List.mem_append] at hf
      rcases hf with hf | hf
      · simp only [List.mem_cons, List.not_mem_nil, or_false] at hf
        rcases hf with hf | hf
        · subst hf
          exact hle r.price
        · subst hf
          exact absurd (show locationFieldName = priceFieldName from hname) (by decide)
      · split at hf
        · simp only [List.mem_singleton] at hf
          subst hf
          exact absurd (show descriptionFieldName = priceFieldName from hname) (by decide)
        · exact absurd hf (List.not_mem_nil f)
    · exact absurd hf (List.not_mem_nil f)

/-- Witness for C8 at a concrete multi-marker price. -/
theorem c8_price_validation_witness :
    1 < countChar '$' "$600 - $650" ∧ presentPrice "$600 - $650" = "Not listed" :=
  ⟨by decide, c8_price_validation.1 "$600 - $650" (by decide)⟩

/-- C9: a description longer than 1024 characters is presented as
exactly 1024 characters — its first 1021 characters followed by the
three-character ellipsis — while a description of at most 1024
characters is left unchanged by the truncation rule. -/
theorem c9_truncation (d : String) :
    (1024 < d.length →
        truncateDescription d = String.mk (d.data.take 1021) ++ "..."
          ∧ (truncateDescription d).length = 1024)
      ∧ (d.length ≤ 1024 → truncateDescription d = d) := by
  constructor
  · intro h
    have ht : truncateDescription d = String.mk (d.data.take 1021) ++ "..." := by
      unfold truncateDescription pyTake
      rw [if_pos h]
    refine ⟨ht, ?_⟩
    rw [ht, String.length_append]
    have h1 : (String.mk (d.data.take 1021)).length = (d.data.take 1021).length := rfl
    have h2 : (d.data.take 1021).length = min 1021 d.data.length := List.length_take ..
    have h3 : d.length = d.data.length := rfl
    have h4 : ("..." : String).length = 3 := rfl
    omega
  · intro h
    unfold truncateDescription
    rw [if_neg (by omega)]

set_option maxRecDepth 8000 in
/-- Witness for C9 at a 1025-character description. -/
theorem c9_truncation_witness :
    1024 < longDescription.length
      ∧ (truncateDescription longDescription
            = String.mk (longDescription.data.take 1021) ++ "..."
          ∧ (truncateDescription longDescription).length = 1024) :=
  ⟨by decide, (c9_truncation longDescription).1 (by decide)⟩

/-- C10: on a normally-completing invocation for a URL not containing
`"marketplace"`, the price and location extractors are never invoked,
both fields hold the distinct sentinel `"N/A"`, the retry pass is never
entered, and exactly one extraction pass (one container acquisition)
happens. -/
theorem c10_non_marketplace (url : String) (env : Env)
    (hd : env.driverOk = true) (hn : env.navFault = none)
    (hm : isMarketplace url = false) :
    (scrape url env).1.price = "N/A"
      ∧ (scrape url env).1.location = "N/A"
      ∧ Event.callPrice ∉ (scrape url env).2
      ∧ Event.callLocation ∉ (scrape url env).2
      ∧ Event.retryPass ∉ (scrape url env).2
      ∧ (scrape url env).2.count Event.acquireContainer = 1 := by
  have hnr : needRetry url (pass1 url env.dom1) = false := by
    simp [needRetry, hm]
  simp only [scrape, hd, hn, if_true]
  refine ⟨?_, ?_, ?_, ?_, ?_, ?_⟩
  · simp only [successRecord, pass2, hnr, Bool.false_eq_true, if_false]
    simp [pass1, hm]
  · simp only [successRecord, pass2, hnr, Bool.false_eq_true, if_false]
    simp [pass1, hm]
  · simp [pass1Trace, pass2Trace, hnr, hm]
  · simp [pass1Trace, pass2Trace, hnr, hm]
  · simp [pass1Trace, pass2Trace, hnr, hm]
  · simp [List.count_append, pass1Trace_count_acquire, pass2Trace, hnr]

/-- Witness for C10 at a non-marketplace share URL. -/
theorem c10_non_marketplace_witness :
    isMarketplace "https://www.facebook.com/share/abc123" = false
      ∧ (scrape "https://www.facebook.com/share/abc123" plainEnv).1.price = "N/A" :=
  ⟨by decide,
   (c10_non_marketplace "https://www.facebook.com/share/abc123" plainEnv rfl rfl
       (by decide)).1⟩

end FBBot
